import Mathlib

/-!
Verification development for the WindVoice capture/validate/transcribe core.

The definitions below are a shallow embedding of the three core modules:
  * services/transcription.py  (TranscriptionService)
  * utils/audio_validation.py  (AudioValidator)
  * services/audio.py          (AudioRecorder)

Machine floats are modelled by exact rationals (the idealized real
semantics of the numeric code); square roots and base-10 logarithms are
abstracted as function parameters, since every use in the source is either
a comparison or a pass-through.  Fallible code is modelled with Except /
explicit outcome values; the HTTP transport and the audio hardware are
modelled as explicit environment parameters.
-/

set_option maxRecDepth 8000

namespace WindVoice

/-! ### Embedding of services/transcription.py -/

/-- Configuration record, from core/config.py (LiteLLMConfig fields used by
the transcription service). -/
structure LiteLLMConfig where
  api_key : String
  api_base : String
  key_alias : String
  model : String
deriving DecidableEq

/-- A file on disk as the service observes it: its stat size in bytes and
the byte string returned by read_bytes. -/
structure AudioFile where
  size : Nat
  content : List Nat
deriving DecidableEq

/-- The filesystem as seen through Path.exists / stat / read_bytes. -/
def FileSystem := String → Option AudioFile

/-- Typed rendering of the distinct TranscriptionError messages raised in
transcribe_audio (transcription.py lines 130, 205, 211, 218, 224, 233, 236). -/
inductive TranscriptionErr where
  | fileNotFound (path : String)
  | invalidCredentials
  | serviceUnavailable
  | requestFailed (status : Nat)
  | networkError
  | genericFailure
  | retriesExhausted
deriving DecidableEq

/-- The error message text attached to each raised TranscriptionError. -/
def TranscriptionErr.message : TranscriptionErr → String
  | .fileNotFound p => "Audio file not found: " ++ p
  | .invalidCredentials => "API key is invalid. Please check your LiteLLM settings."
  | .serviceUnavailable => "Transcription service is temporarily unavailable."
  | .requestFailed s => "Transcription failed (HTTP " ++ toString s ++ ")"
  | .networkError => "Network error. Please check your internet connection."
  | .genericFailure => "Transcription failed"
  | .retriesExhausted => "Transcription failed after 3 attempts"

/-- What a single HTTP POST attempt can come back with: an HTTP response
(status code plus the value of the JSON text field), an aiohttp client
error, or some other exception. -/
inductive AttemptOutcome where
  | response (status : Nat) (textField : String)
  | clientError
  | otherExn
deriving DecidableEq

/-- A transport answers each attempt index (0, 1, 2) with an outcome. -/
def Transport := Nat → AttemptOutcome

/-- One multipart POST request as built in the retry loop
(transcription.py lines 146-186). -/
structure Request where
  url : String
  headers : List (String × String)
  uniqueId : Nat
  fileField : List Nat
  filename : String
  modelField : String
  responseFormat : String
deriving DecidableEq

/-- Result of a transcribe_audio call: the returned text or the raised
typed error. -/
inductive TResult where
  | text (s : String)
  | err (e : TranscriptionErr)
deriving DecidableEq

/-- The request built at a given attempt index: fixed url and headers for
the call, the pre-loaded audio bytes, and the per-attempt filename
embedding the unique id (transcription.py lines 146-185). -/
def mkRequest (cfg : LiteLLMConfig) (uniqueId : Nat) (content : List Nat)
    (attempt : Nat) : Request :=
  { url := cfg.api_base ++ "/v1/audio/transcriptions"
    headers := [("Authorization", "Bearer " ++ cfg.api_key),
                ("X-Key-Alias", cfg.key_alias),
                ("X-Request-ID", toString uniqueId)]
    uniqueId := uniqueId
    fileField := content
    filename := "audio_" ++ toString uniqueId ++ "_" ++ toString attempt ++ ".wav"
    modelField := cfg.model
    responseFormat := "json" }

/-- How the branch ladder of transcribe_audio (lines 188-233) classifies a
single attempt outcome: HTTP 200 succeeds with the stripped text field,
HTTP 401 is fatal, and HTTP 503, any other non-200 status, client errors
and other exceptions are retryable with the indicated terminal error. -/
inductive Classified where
  | success (text : String)
  | fatal (e : TranscriptionErr)
  | retryable (e : TranscriptionErr)
deriving DecidableEq

/-- The classification itself (transcription.py lines 188-233). -/
def classify : AttemptOutcome → Classified
  | .response 200 body => .success body.trim
  | .response 401 _ => .fatal .invalidCredentials
  | .response 503 _ => .retryable .serviceUnavailable
  | .response status _ => .retryable (.requestFailed status)
  | .clientError => .retryable .networkError
  | .otherExn => .retryable .genericFailure

/-- The retry loop of transcribe_audio (lines 166-236): at most 3 attempts,
a 1-second sleep before each retry, 401 fatal, everything else retryable
while attempt < 2.  Returns the result, the list of requests actually
POSTed, and the list of sleep durations in seconds.  The first argument
counts the remaining loop iterations; falling off the loop yields the
generic after-3-attempts error of line 236. -/
def retryLoop (cfg : LiteLLMConfig) (transport : Transport) (uniqueId : Nat)
    (content : List Nat) : Nat → Nat → TResult × List Request × List Nat
  | 0, _ => (.err .retriesExhausted, [], [])
  | remaining + 1, attempt =>
    let req := mkRequest cfg uniqueId content attempt
    match classify (transport attempt) with
    | .success t => (.text t, [req], [])
    | .fatal e => (.err e, [req], [])
    | .retryable e =>
      if attempt < 2 then
        let r := retryLoop cfg transport uniqueId content remaining (attempt + 1)
        (r.1, req :: r.2.1, 1 :: r.2.2)
      else (.err e, [req], [])

/-- Everything observable about one transcribe_audio call. -/
structure TranscribeRun where
  result : TResult
  requests : List Request
  sleeps : List Nat
  compressed : Bool
  largeFileWarning : Bool
deriving DecidableEq

/-- transcribe_audio (transcription.py lines 128-236).  `now` is the
microsecond clock value read at line 144; `session` models whether the
aiohttp session has been created (self.session), returned updated.  Note
that the function never calls _compress_audio_if_needed: for files over
25 MB it only logs a warning (lines 137-140) and was_compressed stays
False (line 135); every attempt uploads the pre-loaded raw bytes. -/
def transcribe_audio (cfg : LiteLLMConfig) (now : Nat) (fs : FileSystem)
    (transport : Transport) (session : Bool) (path : String) :
    TranscribeRun × Bool :=
  match fs path with
  | none =>
    ({ result := .err (.fileNotFound path), requests := [], sleeps := [],
       compressed := false, largeFileWarning := false }, session)
  | some f =>
    let warned := decide (25 * 1048576 < f.size)
    let r := retryLoop cfg transport now f.content 3 0
    ({ result := r.1, requests := r.2.1, sleeps := r.2.2,
       compressed := false, largeFileWarning := warned }, true)

/-! ### Embedding of utils/audio_validation.py -/

/-- Python list slice l[a:b] for 0 <= a <= b (clamping at the ends). -/
def sliceQ (l : List ℚ) (a b : Nat) : List ℚ :=
  (l.drop a).take (b - a)

/-- np.mean over rationals; the mean of an empty list is irrelevant to any
use below (callers guard emptiness) and defaults to 0. -/
def meanQ (l : List ℚ) : ℚ :=
  l.sum / (l.length : ℚ)

/-- np.sqrt(np.mean(x**2)) with the square root left abstract. -/
def rmsOf (sq : ℚ → ℚ) (l : List ℚ) : ℚ :=
  sq (meanQ (l.map (fun x => x * x)))

/-- np.max(np.abs(x)) for nonempty x. -/
def peakOf (l : List ℚ) : ℚ :=
  (l.map (fun x => |x|)).foldr max 0

/-- Insertion of an element into a sorted list (used to model the sort
inside np.percentile). -/
def insertSorted (a : ℚ) : List ℚ → List ℚ
  | [] => [a]
  | b :: t => if a ≤ b then a :: b :: t else b :: insertSorted a t

/-- Insertion sort over rationals. -/
def sortQ : List ℚ → List ℚ
  | [] => []
  | a :: t => insertSorted a (sortQ t)

/-- np.percentile(l, p) with linear interpolation on the sorted values
(the numpy default); meaningful only for nonempty l. -/
def percentileQ (p : ℚ) (l : List ℚ) : ℚ :=
  let s := sortQ l
  let n := s.length
  let r : ℚ := ((n : ℚ) - 1) * p / 100
  let lo := (Int.floor r).toNat
  let hi := min (lo + 1) (n - 1)
  let frac := r - (lo : ℚ)
  s.getD lo 0 + frac * (s.getD hi 0 - s.getD lo 0)

/-- The index list produced by range(0, stop, step) for step >= 1. -/
def pyRangeStep (stop step : Nat) : List Nat :=
  (List.range ((stop + step - 1) / step)).map (fun k => k * step)

/-- A voice activity segment (audio_validation.py lines 36-42). -/
structure VoiceActivitySegment where
  start_time : ℚ
  end_time : ℚ
  duration : ℚ
  confidence : ℚ
deriving DecidableEq

/-- The 25ms/10ms frame grid in seconds used for segment timestamps
(frame_shift = 0.010 in _detect_voice_activity). -/
def frameShiftSec : ℚ := 1 / 100

/-- Segment confidence for a run of voiced frames from time s to time e
(audio_validation.py lines 190-199): mean frame energy over the run
divided by the threshold, clamped to 1. -/
def segConfidence (fe : List ℚ) (thr : ℚ) (s e : ℚ) : ℚ :=
  let lo := (Int.floor (s / frameShiftSec)).toNat
  let hi := min fe.length (Int.floor (e / frameShiftSec)).toNat
  min 1 (meanQ (sliceQ fe lo hi) / thr)

/-- Confidence of a final segment that runs to the end of the recording
(audio_validation.py lines 209-217). -/
def segConfidenceTail (fe : List ℚ) (thr : ℚ) (s : ℚ) : ℚ :=
  let lo := (Int.floor (s / frameShiftSec)).toNat
  min 1 (meanQ (fe.drop lo) / thr)

/-- The frame-flag state machine of _detect_voice_activity (lines 174-218):
walk the voiced flags with an in-segment marker, emitting segments of at
least 100ms; a segment still open at the end of the recording is closed at
final time `total`. -/
def vadSegments (fe : List ℚ) (thr total : ℚ) :
    Nat → List Bool → Bool → ℚ → List VoiceActivitySegment
  | _, [], inSeg, segStart =>
    if inSeg then
      let d := total - segStart
      if 1 / 10 ≤ d then
        [{ start_time := segStart, end_time := total, duration := d,
           confidence := segConfidenceTail fe thr segStart }]
      else []
    else []
  | i, flag :: rest, inSeg, segStart =>
    let timePos := (i : ℚ) * frameShiftSec
    if flag && !inSeg then
      vadSegments fe thr total (i + 1) rest true timePos
    else if !flag && inSeg then
      let d := timePos - segStart
      let tail := vadSegments fe thr total (i + 1) rest false segStart
      if 1 / 10 ≤ d then
        { start_time := segStart, end_time := timePos, duration := d,
          confidence := segConfidence fe thr segStart timePos } :: tail
      else tail
    else
      vadSegments fe thr total (i + 1) rest inSeg segStart

/-- The fallback of _detect_voice_activity (lines 222-236), used when the
frame loop raises (zero frame shift or empty energy array): a single
whole-recording segment if the overall RMS and duration pass the fixed
thresholds, else no segments. -/
def vadFallback (sq : ℚ → ℚ) (audio : List ℚ) (sr : Nat) :
    List VoiceActivitySegment :=
  let rms := rmsOf sq audio
  let duration := (audio.length : ℚ) / (sr : ℚ)
  if 1 / 200 < rms ∧ 1 / 5 ≤ duration then
    [{ start_time := 0, end_time := duration, duration := duration,
       confidence := min 1 (rms / (1 / 200)) }]
  else []

/-- _detect_voice_activity (audio_validation.py lines 145-236): 25ms frames
at a 10ms hop, per-frame RMS energy, adaptive threshold
max(voice_threshold_rms, 40th percentile), then the segment state machine.
A zero frame hop makes range() raise and an empty energy array makes
np.percentile raise; both exceptions land in the fallback branch. -/
def detectVoiceActivity (sq : ℚ → ℚ) (audio : List ℚ) (sr : Nat) :
    List VoiceActivitySegment :=
  let frameLength := sr / 40
  let frameShiftSamples := sr / 100
  if frameShiftSamples = 0 then vadFallback sq audio sr
  else
    let fe := (pyRangeStep (audio.length - frameLength) frameShiftSamples).map
      (fun i => rmsOf sq (sliceQ audio i (i + frameLength)))
    if fe.isEmpty then vadFallback sq audio sr
    else
      let thr := max (1 / 200) (percentileQ 40 fe)
      let flags := fe.map (fun e => decide (thr < e))
      vadSegments fe thr ((audio.length : ℚ) / (sr : ℚ)) 0 flags false 0

/-- _calculate_voice_ratio (lines 238-244). -/
def calculateVoiceRatio (segments : List VoiceActivitySegment)
    (total : ℚ) : ℚ :=
  if segments.isEmpty ∨ total ≤ 0 then 0
  else min 1 ((segments.map VoiceActivitySegment.duration).sum / total)

/-- _estimate_noise_level (lines 246-265): 20th percentile of RMS over
1024-sample windows at 50 percent overlap; 0 when there are no windows. -/
def estimateNoiseLevel (sq : ℚ → ℚ) (audio : List ℚ) : ℚ :=
  let vals := (pyRangeStep (audio.length - 1024) 512).map
    (fun i => rmsOf sq (sliceQ audio i (i + 1024)))
  if vals.isEmpty then 0 else percentileQ 20 vals

/-- _calculate_dynamic_range (lines 267-281) with log10 left abstract. -/
def calculateDynamicRange (lg : ℚ → ℚ) (peak rms : ℚ) : ℚ :=
  if 0 < rms ∧ 0 < peak then 20 * lg (peak / rms) else 0

/-- _calculate_quality_score (lines 283-322). -/
def calculateQualityScore (rms _peak duration ratio noise dynRange : ℚ)
    (clipping : Bool) : ℚ :=
  let s0 : ℚ := 100
  let s1 := if rms < 1 / 100 then s0 - 30 else if 1 / 2 < rms then s0 - 20 else s0
  let s2 := if duration < 1 then s1 - 20 * (1 - duration) else s1
  let s3 := if 1 / 2 < ratio then s2 + 10 else if ratio < 1 / 10 then s2 - 30 else s2
  let s4 := if rms * (1 / 2) < noise then s3 - 25 else s3
  let s5 := if dynRange < 6 then s4 - 15 else s4
  let s6 := if clipping then s5 - 20 else s5
  max 0 (min 100 s6)

/-- The metrics record built by _analyze_audio (lines 19-33, 130-143). -/
structure AudioQualityMetrics where
  has_voice : Bool
  rms_level : ℚ
  peak_level : ℚ
  duration : ℚ
  file_size_mb : ℚ
  sample_rate : Nat
  channels : Nat
  voice_activity_ratio : ℚ
  noise_level : ℚ
  dynamic_range : ℚ
  clipping_detected : Bool
  quality_score : ℚ
deriving DecidableEq

/-- _analyze_audio (audio_validation.py lines 86-143) on mono samples with
no file path (the validate_audio_data route).  np.max over an empty array
raises, and a zero sample rate raises on the duration division; both are
surfaced as errors.  has_voice is the four-way conjunction of lines
117-122. -/
def analyzeAudio (sq lg : ℚ → ℚ) (audio : List ℚ) (sr : Nat) :
    Except String AudioQualityMetrics :=
  if sr = 0 then .error "division by zero"
  else if audio.isEmpty then
    .error "zero-size array to reduction operation maximum"
  else
    let duration := (audio.length : ℚ) / (sr : ℚ)
    let rms := rmsOf sq audio
    let peak := peakOf audio
    let fileSizeMb := ((audio.length : ℚ) * 2) / 1048576
    let segments := detectVoiceActivity sq audio sr
    let ratio := calculateVoiceRatio segments duration
    let noise := estimateNoiseLevel sq audio
    let dynRange := calculateDynamicRange lg peak rms
    let clipping := decide (49 / 50 < peak)
    let hasVoice := decide (1 / 5 ≤ duration) && decide (1 / 200 < rms) &&
      decide (3 / 100 < ratio) && !(decide (rms * (4 / 5) < noise))
    .ok { has_voice := hasVoice
          rms_level := rms
          peak_level := peak
          duration := duration
          file_size_mb := fileSizeMb
          sample_rate := sr
          channels := 1
          voice_activity_ratio := ratio
          noise_level := noise
          dynamic_range := dynRange
          clipping_detected := clipping
          quality_score := calculateQualityScore rms peak duration ratio
            noise dynRange clipping }

/-- Projection used to state theorems about successful analyses without
binders: the metrics of an ok result, with an adversarial default on
errors (has_voice true, nonzero ratio), so that properties claiming
has_voice = false or ratio = 0 cannot hold vacuously through the default. -/
def getMetrics (r : Except String AudioQualityMetrics) : AudioQualityMetrics :=
  match r with
  | .ok m => m
  | .error _ =>
    { has_voice := true, rms_level := 0, peak_level := 0, duration := 0,
      file_size_mb := 0, sample_rate := 0, channels := 0,
      voice_activity_ratio := 1, noise_level := 0, dynamic_range := 0,
      clipping_detected := false, quality_score := 0 }

/-! ### Embedding of services/audio.py -/

/-- The loudness test applied to one backward-scan chunk of
_fast_trim_silence (audio.py lines 472-476): the chunk [i, i+c) is
nonempty and its RMS exceeds the trim threshold. -/
def chunkLoud (sq : ℚ → ℚ) (threshold : ℚ) (audio : List ℚ) (c i : Nat) : Bool :=
  let chunk := sliceQ audio i (i + c)
  decide (0 < chunk.length) && decide (threshold < sq (meanQ (chunk.map (fun x => x * x))))

/-- The backward scan of _fast_trim_silence (lines 470-478): starting from
index i, step down by the chunk size k+1; the first loud chunk ends the
scan with its end index, and running past the front yields 0 (the loop
variant of range(len - chunk, -1, -chunk) with last_sound_idx = 0). -/
def trimGo (loud : Nat → Bool) (k : Nat) (i : Nat) : Nat :=
  if loud i then i + (k + 1)
  else if _h : i < k + 1 then 0
  else trimGo loud k (i - (k + 1))
termination_by i
decreasing_by omega

/-- chunk_size of _fast_trim_silence (lines 465-467): int(0.1*sr), floored
at 1, modelled with exact Nat division. -/
def trimChunkSize (sampleRate : Nat) : Nat :=
  if sampleRate / 10 = 0 then 1 else sampleRate / 10

/-- buffer_samples of _fast_trim_silence (line 481): int(0.2*sr). -/
def trimPad (sampleRate : Nat) : Nat :=
  sampleRate / 5

/-- last_sound_idx as computed by the backward scan of _fast_trim_silence
(lines 470-478); 0 when the audio is shorter than one chunk (the range is
then empty) or when no chunk is loud. -/
def trimLastIdx (sq : ℚ → ℚ) (threshold : ℚ) (sampleRate : Nat)
    (audio : List ℚ) : Nat :=
  let c := trimChunkSize sampleRate
  if audio.length < c then 0
  else trimGo (chunkLoud sq threshold audio c) (c - 1) (audio.length - c)

/-- _fast_trim_silence (audio.py lines 458-484): scan backward in 100ms
chunks for the last chunk whose RMS exceeds the threshold, then keep
everything up to that point plus a 0.2s pad. -/
def fastTrimSilence (sq : ℚ → ℚ) (sampleRate : Nat) (audio : List ℚ)
    (threshold : ℚ) : List ℚ :=
  if audio.length = 0 then audio
  else
    audio.take (min audio.length
      (trimLastIdx sq threshold sampleRate audio + trimPad sampleRate))

/-- The mutable recorder state touched by start/stop (audio.py lines
41-42): the active flag and the live sample buffer. -/
structure RecorderState where
  recording : Bool
  audioData : Option (List ℚ)
deriving DecidableEq

/-- Outcome classification for the recorder operations. -/
inductive AudioErr where
  | notRecording
  | alreadyRecording
  | deviceBusy
  | deviceUnavailable
  | stopFailed
deriving DecidableEq

/-- start_recording (audio.py lines 218-299): reject if already recording;
probe the device (availability modelled by `avail`: none means available,
some reason means the probe failed); on success install the freshly
allocated capture buffer (sd.rec) and set the active flag.  A probe
failure raises and the except clause leaves recording = False. -/
def startRecording (avail : Option AudioErr) (freshBuffer : List ℚ)
    (s : RecorderState) : RecorderState × Except AudioErr Unit :=
  if s.recording then (s, .error .alreadyRecording)
  else
    match avail with
    | some e => ({ s with recording := false }, .error e)
    | none => ({ recording := true, audioData := some freshBuffer }, .ok ())

/-- stop_recording (audio.py lines 329-456).  Failure injection: haltOk
models sd.stop()/sd.wait() succeeding, writeOk models sf.write succeeding;
elapsed is the wall-clock recording duration when available, currentFrame
the sounddevice frame fallback.  Every exception inside the try block
lands in the except clause (lines 446-456), which clears the recording
flag and the buffer before re-raising; the success path clears the buffer
at line 442.  The ok result carries the trimmed samples written to the
artifact file. -/
def stopRecording (sq : ℚ → ℚ) (sampleRate : Nat) (haltOk writeOk : Bool)
    (elapsed : Option ℚ) (currentFrame : Nat) (s : RecorderState) :
    RecorderState × Except AudioErr (List ℚ) :=
  if !s.recording then (s, .error .notRecording)
  else if !haltOk then ({ recording := false, audioData := none }, .error .stopFailed)
  else
    match s.audioData with
    | none => ({ recording := false, audioData := none }, .error .stopFailed)
    | some buf =>
      let actualSamples :=
        match elapsed with
        | some d =>
          if d = 0 then min currentFrame buf.length
          else min (Int.floor (d * (sampleRate : ℚ))).toNat buf.length
        | none => min currentFrame buf.length
      let actualAudio := if 0 < actualSamples then buf.take actualSamples else buf
      let trimmed := fastTrimSilence sq sampleRate actualAudio (1 / 100)
      if !writeOk then ({ recording := false, audioData := none }, .error .stopFailed)
      else ({ recording := false, audioData := none }, .ok trimmed)

/-- _compress_audio_if_needed (transcription.py lines 76-126), modelled on
the decoded samples: under the 25 MB ceiling the original artifact is
returned untouched with compressed = False; above it the audio is mixed to
mono, decimated toward 16 kHz when the rate exceeds 24 kHz, and flagged
compressed.  transcribe_audio never invokes this function. -/
def compressAudioIfNeeded (fileSize : Nat) (frames : List (List ℚ))
    (sampleRate : Nat) : List (List ℚ) × Nat × Bool :=
  if fileSize ≤ 25 * 1048576 then (frames, sampleRate, false)
  else
    let monoSamples := frames.map meanQ
    let result :=
      if 24000 < sampleRate then
        let d := sampleRate / 16000
        if 1 < d then
          ((pyRangeStep monoSamples.length d).map (fun i => monoSamples.getD i 0), 16000)
        else (monoSamples, sampleRate)
      else (monoSamples, sampleRate)
    (result.1.map (fun x => [x]), result.2, true)

/-- Header names that a cache-busting directive would use.  Modelled from
the spec: the spec asks for a per-call unique request-id header plus a
cache-busting directive (cache-disabling headers); these are the standard
HTTP cache-control header names such a directive could be carried in. -/
def cacheDirectiveHeaderNames : List String :=
  ["Cache-Control", "Pragma", "Expires"]

/-! ### Concrete fixtures for witnesses and counterexamples -/

/-- A concrete service configuration. -/
def cfg0 : LiteLLMConfig :=
  { api_key := "key123", api_base := "https://llm.example", key_alias := "alias1",
    model := "whisper-1" }

/-- A filesystem holding one small (2-byte) artifact. -/
def fs0 : FileSystem :=
  fun p => if p = "a.wav" then some { size := 2, content := [1, 2] } else none

/-- A filesystem holding one artifact whose stat size is 26 MiB, over the
25 MB compression ceiling. -/
def fsBig : FileSystem :=
  fun p => if p = "big.wav" then some { size := 26 * 1048576, content := [7, 7] } else none

/-- A transport that answers HTTP 503 on every attempt. -/
def t503 : Transport := fun _ => .response 503 "unavailable"

/-- A transport that answers HTTP 200 on every attempt. -/
def t200 : Transport := fun _ => .response 200 " hello "

/-- A transport that answers HTTP 401 on every attempt. -/
def t401 : Transport := fun _ => .response 401 "denied"

/-! ### Supporting lemmas -/

/-- One unfolding step of the retry loop. -/
theorem retryLoop_succ (cfg : LiteLLMConfig) (transport : Transport)
    (uid : Nat) (content : List Nat) (rem att : Nat) :
    retryLoop cfg transport uid content (rem + 1) att =
      (let req := mkRequest cfg uid content att
       match classify (transport att) with
       | .success t => (.text t, [req], [])
       | .fatal e => (.err e, [req], [])
       | .retryable e =>
         if att < 2 then
           let r := retryLoop cfg transport uid content rem (att + 1)
           (r.1, req :: r.2.1, 1 :: r.2.2)
         else (.err e, [req], [])) := rfl

/-- Every request POSTed by the retry loop is the one built by mkRequest
for some attempt index: fixed url, headers and payload, per-attempt
filename. -/
theorem retryLoop_requests_mem (cfg : LiteLLMConfig) (transport : Transport)
    (uid : Nat) (content : List Nat) :
    ∀ rem att r, r ∈ (retryLoop cfg transport uid content rem att).2.1 →
      ∃ a, r = mkRequest cfg uid content a := by
  intro rem
  induction rem with
  | zero => intro att r hr; simp [retryLoop] at hr
  | succ n ih =>
    intro att r hr
    simp only [retryLoop] at hr
    cases hc : classify (transport att) with
    | success t =>
      rw [hc] at hr; simp at hr; exact ⟨att, hr⟩
    | fatal e =>
      rw [hc] at hr; simp at hr; exact ⟨att, hr⟩
    | retryable e =>
      rw [hc] at hr
      by_cases h2 : att < 2
      · simp [h2] at hr
        rcases hr with hr | hr
        · exact ⟨att, hr⟩
        · exact ih (att + 1) r hr
      · simp [h2] at hr; exact ⟨att, hr⟩

/-- The mean of a list of zeros is zero. -/
theorem meanQ_zero (l : List ℚ) (h : ∀ a ∈ l, a = 0) : meanQ l = 0 := by
  unfold meanQ
  rw [List.sum_eq_zero h, zero_div]

/-- The RMS of a list of zeros is the square root of zero. -/
theorem rmsOf_zero (sq : ℚ → ℚ) (l : List ℚ) (h : ∀ a ∈ l, a = 0) :
    rmsOf sq l = sq 0 := by
  unfold rmsOf
  congr 1
  apply meanQ_zero
  intro a ha
  obtain ⟨b, hb, rfl⟩ := List.mem_map.mp ha
  rw [h b hb, mul_zero]

/-- Elements of a Python slice come from the sliced list. -/
theorem mem_sliceQ {x : ℚ} {l : List ℚ} {a b : Nat} (h : x ∈ sliceQ l a b) :
    x ∈ l :=
  List.drop_subset a l (List.take_subset _ _ h)

/-- Membership through sorted insertion. -/
theorem mem_insertSorted {x a : ℚ} {l : List ℚ} :
    x ∈ insertSorted a l ↔ x = a ∨ x ∈ l := by
  induction l with
  | nil => simp [insertSorted]
  | cons b t ih =>
    simp only [insertSorted]
    split
    · simp
    · simp only [List.mem_cons, ih]
      tauto

/-- Membership through the insertion sort. -/
theorem mem_sortQ {x : ℚ} {l : List ℚ} : x ∈ sortQ l ↔ x ∈ l := by
  induction l with
  | nil => simp [sortQ]
  | cons a t ih => simp [sortQ, mem_insertSorted, ih]

/-- getD over a list of zeros with default zero is zero. -/
theorem getD_zero (s : List ℚ) (i : Nat) (h : ∀ a ∈ s, a = 0) :
    s.getD i 0 = 0 := by
  induction s generalizing i with
  | nil => simp [List.getD]
  | cons a t ih =>
    cases i with
    | zero => simpa using h a (by simp)
    | succ j =>
      simp only [List.getD_cons_succ]
      exact ih j (fun b hb => h b (by simp [hb]))

/-- Any percentile of a list of zeros is zero. -/
theorem percentileQ_zero (p : ℚ) (l : List ℚ) (h : ∀ a ∈ l, a = 0) :
    percentileQ p l = 0 := by
  unfold percentileQ
  have hs : ∀ a ∈ sortQ l, a = 0 := fun a ha => h a (mem_sortQ.mp ha)
  simp only [getD_zero _ _ hs]
  ring

/-- The segment state machine emits nothing when every frame flag is off
and no segment is open. -/
theorem vadSegments_all_false (fe : List ℚ) (thr total : ℚ) :
    ∀ i flags s, (∀ b ∈ flags, b = false) →
      vadSegments fe thr total i flags false s = [] := by
  intro i flags
  induction flags generalizing i with
  | nil => intro s _; simp [vadSegments]
  | cons b t ih =>
    intro s h
    have hb : b = false := h b (by simp)
    subst hb
    simp only [vadSegments, Bool.false_and, Bool.not_false, Bool.not_true,
      Bool.true_and, Bool.and_false, if_false]
    exact ih (i + 1) s (fun c hc => h c (by simp [hc]))

/-- The VAD fallback yields no segments on pure silence. -/
theorem vadFallback_silence (sq : ℚ → ℚ) (n sr : Nat) (h0 : sq 0 = 0) :
    vadFallback sq (List.replicate n 0) sr = [] := by
  unfold vadFallback
  rw [rmsOf_zero sq _ (fun a ha => List.eq_of_mem_replicate ha), h0]
  rw [if_neg]
  rintro ⟨hlt, -⟩
  norm_num at hlt

/-- _detect_voice_activity yields no segments on pure silence. -/
theorem detectVoiceActivity_silence (sq : ℚ → ℚ) (n sr : Nat) (h0 : sq 0 = 0) :
    detectVoiceActivity sq (List.replicate n 0) sr = [] := by
  unfold detectVoiceActivity
  by_cases hsh : sr / 100 = 0
  · simp only [if_pos hsh]
    exact vadFallback_silence sq n sr h0
  · simp only [if_neg hsh]
    set fe := (pyRangeStep ((List.replicate n (0 : ℚ)).length - sr / 40) (sr / 100)).map
      (fun i => rmsOf sq (sliceQ (List.replicate n 0) i (i + sr / 40))) with hfe
    have hall : ∀ e ∈ fe, e = 0 := by
      intro e he
      obtain ⟨i, _, rfl⟩ := List.mem_map.mp he
      rw [rmsOf_zero sq _ (fun a ha => List.eq_of_mem_replicate (mem_sliceQ ha)), h0]
    by_cases hempty : fe.isEmpty
    · simp only [if_pos hempty]
      exact vadFallback_silence sq n sr h0
    · simp only [if_neg hempty]
      have hthr : max (1 / 200 : ℚ) (percentileQ 40 fe) = 1 / 200 := by
        rw [percentileQ_zero _ _ hall]
        exact max_eq_left (by norm_num)
      rw [hthr]
      apply vadSegments_all_false
      intro b hb
      obtain ⟨e, he, rfl⟩ := List.mem_map.mp hb
      rw [hall e he]
      norm_num

/-- Unfolding equation for the backward trim scan. -/
theorem trimGo_eq (loud : Nat → Bool) (k i : Nat) :
    trimGo loud k i = if loud i then i + (k + 1)
      else if i < k + 1 then 0 else trimGo loud k (i - (k + 1)) := by
  rw [trimGo]
  simp only [dite_eq_ite]

/-- Every nonzero scan result is the end index of some loud chunk at or
before the start position. -/
theorem trimGo_shape (loud : Nat → Bool) (k : Nat) :
    ∀ i, (∃ j, j ≤ i ∧ loud j = true ∧ trimGo loud k i = j + (k + 1)) ∨
      trimGo loud k i = 0 := by
  intro i
  induction i using Nat.strong_induction_on with
  | _ i ih =>
    by_cases hl : loud i = true
    · exact Or.inl ⟨i, le_rfl, hl, by rw [trimGo_eq, if_pos hl]⟩
    · by_cases hk : i < k + 1
      · exact Or.inr (by rw [trimGo_eq, if_neg hl, if_pos hk])
      · rcases ih (i - (k + 1)) (by omega) with ⟨j, hj, hlj, he⟩ | h0
        · exact Or.inl ⟨j, by omega, hlj, by rw [trimGo_eq, if_neg hl, if_neg hk]; exact he⟩
        · exact Or.inr (by rw [trimGo_eq, if_neg hl, if_neg hk]; exact h0)

/-- The scan result only depends on the loudness of positions at or below
the start position. -/
theorem trimGo_congr (loud loud2 : Nat → Bool) (k : Nat) :
    ∀ i, (∀ j, j ≤ i → loud j = loud2 j) → trimGo loud k i = trimGo loud2 k i := by
  intro i
  induction i using Nat.strong_induction_on with
  | _ i ih =>
    intro hagree
    rw [trimGo_eq, trimGo_eq loud2, hagree i le_rfl]
    by_cases hl : loud2 i = true
    · rw [if_pos hl, if_pos hl]
    · by_cases hk : i < k + 1
      · rw [if_neg hl, if_neg hl, if_pos hk, if_pos hk]
      · rw [if_neg hl, if_neg hl, if_neg hk, if_neg hk]
        exact ih (i - (k + 1)) (by omega) (fun j hj => hagree j (by omega))

/-- Starting the scan any whole number of chunks above a loud chunk, the
result is at least the end of that loud chunk. -/
theorem trimGo_descent (loud : Nat → Bool) (k j : Nat) (hj : loud j = true) :
    ∀ m, j + (k + 1) ≤ trimGo loud k (j + m * (k + 1)) := by
  intro m
  induction m with
  | zero => rw [trimGo_eq]; simp [hj]
  | succ m ih =>
    have hsm : (m + 1) * (k + 1) = m * (k + 1) + (k + 1) := by ring
    rw [trimGo_eq]
    by_cases hl : loud (j + (m + 1) * (k + 1)) = true
    · rw [if_pos hl]; omega
    · rw [if_neg hl, if_neg (by omega : ¬ (j + (m + 1) * (k + 1) < k + 1))]
      have harith : j + (m + 1) * (k + 1) - (k + 1) = j + m * (k + 1) := by omega
      rw [harith]
      exact ih

/-- Slicing commutes with a prefix truncation that covers the slice. -/
theorem sliceQ_take (l : List ℚ) (n a b : Nat) (h : b ≤ n) :
    sliceQ (l.take n) a b = sliceQ l a b := by
  unfold sliceQ
  rw [List.drop_take, List.take_take]
  congr 1
  omega

/-- Chunk loudness is unchanged by a prefix truncation covering the chunk. -/
theorem chunkLoud_take (sq : ℚ → ℚ) (t : ℚ) (l : List ℚ) (n c i : Nat)
    (h : i + c ≤ n) :
    chunkLoud sq t (l.take n) c i = chunkLoud sq t l c i := by
  unfold chunkLoud
  rw [sliceQ_take l n i (i + c) h]

/-- Taking min n (length) is the same as taking n. -/
theorem take_min_length (l : List ℚ) (n : Nat) :
    l.take (min n l.length) = l.take n := by
  rcases le_total n l.length with h | h
  · rw [min_eq_left h]
  · rw [min_eq_right h, List.take_length, List.take_of_length_le h]

/-- trimLastIdx unfolded. -/
theorem trimLastIdx_def (sq : ℚ → ℚ) (t : ℚ) (sr : Nat) (audio : List ℚ) :
    trimLastIdx sq t sr audio =
      if audio.length < trimChunkSize sr then 0
      else trimGo (chunkLoud sq t audio (trimChunkSize sr)) (trimChunkSize sr - 1)
        (audio.length - trimChunkSize sr) := rfl

/-! ### Claim theorems -/

/-- Claim C1, counterexample.  On a transport that answers HTTP 503 on
every attempt, transcribe_audio does make 3 attempts, but the error it
raises is the 503-specific ServiceUnavailable message of line 211, not the
generic after-3-attempts RetriesExhausted failure of line 236 (which is
unreachable). -/
theorem transcribe_always503_counterexample :
    (transcribe_audio cfg0 7 fs0 t503 false "a.wav").1.requests.length = 3 ∧
    (transcribe_audio cfg0 7 fs0 t503 false "a.wav").1.result ≠
      .err .retriesExhausted ∧
    (transcribe_audio cfg0 7 fs0 t503 false "a.wav").1.result =
      .err .serviceUnavailable := by
  decide

/-- Claim C1, amended.  For every transport answering HTTP 503 on every
attempt, transcribe_audio makes exactly 3 attempts with a fixed 1-second
sleep between consecutive attempts, and then raises the ServiceUnavailable
error (not the generic RetriesExhausted failure). -/
theorem transcribe_always503_three_attempts (cfg : LiteLLMConfig) (now : Nat)
    (fs : FileSystem) (transport : Transport) (session : Bool) (path : String)
    (f : AudioFile) (body : Nat → String)
    (hf : fs path = some f) (hT : ∀ a, transport a = .response 503 (body a)) :
    (transcribe_audio cfg now fs transport session path).1.requests.length = 3 ∧
    (transcribe_audio cfg now fs transport session path).1.sleeps = [1, 1] ∧
    (transcribe_audio cfg now fs transport session path).1.result =
      .err .serviceUnavailable := by
  have hloop : retryLoop cfg transport now f.content 3 0 =
      (.err .serviceUnavailable,
       [mkRequest cfg now f.content 0, mkRequest cfg now f.content 1,
        mkRequest cfg now f.content 2], [1, 1]) := by
    rw [retryLoop_succ, hT 0]
    simp only [classify, Nat.zero_lt_two, if_true]
    rw [retryLoop_succ, hT 1]
    simp only [classify, Nat.one_lt_two, if_true]
    rw [retryLoop_succ, hT 2]
    simp [classify]
  simp [transcribe_audio, hf, hloop]

/-- Claim C1, witness for the amended theorem at a concrete always-503
transport. -/
theorem transcribe_always503_three_attempts_witness :
    (transcribe_audio cfg0 7 fs0 t503 false "a.wav").1.requests.length = 3 ∧
    (transcribe_audio cfg0 7 fs0 t503 false "a.wav").1.sleeps = [1, 1] ∧
    (transcribe_audio cfg0 7 fs0 t503 false "a.wav").1.result =
      .err .serviceUnavailable :=
  transcribe_always503_three_attempts cfg0 7 fs0 t503 false "a.wav"
    { size := 2, content := [1, 2] } (fun _ => "unavailable") (by decide)
    (fun _ => rfl)

/-- Claim C2.  For every transport answering HTTP 401 on the first
attempt, transcribe_audio makes exactly 1 attempt, sleeps zero times, and
raises InvalidCredentials immediately. -/
theorem transcribe_401_first_attempt (cfg : LiteLLMConfig) (now : Nat)
    (fs : FileSystem) (transport : Transport) (session : Bool) (path : String)
    (f : AudioFile) (body : String)
    (hf : fs path = some f) (h401 : transport 0 = .response 401 body) :
    (transcribe_audio cfg now fs transport session path).1.result =
      .err .invalidCredentials ∧
    (transcribe_audio cfg now fs transport session path).1.requests.length = 1 ∧
    (transcribe_audio cfg now fs transport session path).1.sleeps = [] := by
  have hloop : retryLoop cfg transport now f.content 3 0 =
      (.err .invalidCredentials, [mkRequest cfg now f.content 0], []) := by
    rw [retryLoop_succ, h401]
    simp [classify]
  simp [transcribe_audio, hf, hloop]

/-- Claim C2, witness at a concrete 401 transport. -/
theorem transcribe_401_first_attempt_witness :
    (transcribe_audio cfg0 5 fs0 t401 false "a.wav").1.result =
      .err .invalidCredentials ∧
    (transcribe_audio cfg0 5 fs0 t401 false "a.wav").1.requests.length = 1 ∧
    (transcribe_audio cfg0 5 fs0 t401 false "a.wav").1.sleeps = [] :=
  transcribe_401_first_attempt cfg0 5 fs0 t401 false "a.wav"
    { size := 2, content := [1, 2] } "denied" (by decide) rfl

/-- Claim C3, counterexample.  A concrete artifact whose stat size (26 MiB)
exceeds the 25 MB ceiling: transcribe_audio only logs the large-file
warning, applies no compression (was_compressed stays False), and uploads
the raw artifact bytes unchanged, contrary to the claim that compression
is applied above the ceiling. -/
theorem transcribe_large_file_counterexample :
    25 * 1048576 < 26 * 1048576 ∧
    (transcribe_audio cfg0 9 fsBig t200 false "big.wav").1.largeFileWarning = true ∧
    (transcribe_audio cfg0 9 fsBig t200 false "big.wav").1.compressed = false ∧
    (transcribe_audio cfg0 9 fsBig t200 false "big.wav").1.requests.map
      Request.fileField = [[7, 7]] := by
  refine ⟨by norm_num, rfl, rfl, rfl⟩

/-- Claim C3, amended.  transcribe_audio never compresses: for every
artifact of any size, every attempt uploads exactly the artifact bytes
read from disk, and the compressed flag stays false (the compression
routine _compress_audio_if_needed exists but is not invoked; above the
ceiling the code only logs a warning). -/
theorem transcribe_uploads_raw_bytes (cfg : LiteLLMConfig) (now : Nat)
    (fs : FileSystem) (transport : Transport) (session : Bool) (path : String)
    (f : AudioFile) (hf : fs path = some f) :
    (transcribe_audio cfg now fs transport session path).1.compressed = false ∧
    ∀ r ∈ (transcribe_audio cfg now fs transport session path).1.requests,
      r.fileField = f.content := by
  constructor
  · simp [transcribe_audio, hf]
  · intro r hr
    simp only [transcribe_audio, hf] at hr
    obtain ⟨a, rfl⟩ := retryLoop_requests_mem cfg transport now f.content 3 0 r hr
    rfl

/-- Claim C3, witness for the amended theorem. -/
theorem transcribe_uploads_raw_bytes_witness :
    (transcribe_audio cfg0 5 fs0 t200 false "a.wav").1.compressed = false ∧
    (mkRequest cfg0 5 [1, 2] 0).fileField = [1, 2] :=
  ⟨(transcribe_uploads_raw_bytes cfg0 5 fs0 t200 false "a.wav"
      { size := 2, content := [1, 2] } (by decide)).1,
   (transcribe_uploads_raw_bytes cfg0 5 fs0 t200 false "a.wav"
      { size := 2, content := [1, 2] } (by decide)).2
     (mkRequest cfg0 5 [1, 2] 0) (by decide)⟩

/-- Claim C8, counterexample.  A concrete call attaches exactly the
Authorization, key-alias and request-id headers and nothing else: no
cache-busting directive (Cache-Control / Pragma / Expires) is attached,
contrary to the claim. -/
theorem transcribe_no_cache_directive_counterexample :
    (transcribe_audio cfg0 7 fs0 t200 false "a.wav").1.requests.map
        (fun r => r.headers.map Prod.fst) =
      [["Authorization", "X-Key-Alias", "X-Request-ID"]] ∧
    ["Authorization", "X-Key-Alias", "X-Request-ID"].inter
      cacheDirectiveHeaderNames = [] := by
  decide

/-- Claim C8, amended.  Two calls made at different microsecond clock
readings (any two consecutive calls) carry different per-call unique
request identifiers; each request attaches its identifier in the
X-Request-ID header, and the header set is exactly Authorization,
X-Key-Alias and X-Request-ID, with no separate cache-busting directive. -/
theorem transcribe_unique_request_ids (cfg : LiteLLMConfig) (fs : FileSystem)
    (tr1 tr2 : Transport) (s1 s2 : Bool) (path : String) (f : AudioFile)
    (now1 now2 : Nat) (hne : now1 ≠ now2) (hf : fs path = some f) :
    ∀ r1 ∈ (transcribe_audio cfg now1 fs tr1 s1 path).1.requests,
      ∀ r2 ∈ (transcribe_audio cfg now2 fs tr2 s2 path).1.requests,
        r1.uniqueId ≠ r2.uniqueId ∧
        r1.headers.map Prod.fst = ["Authorization", "X-Key-Alias", "X-Request-ID"] ∧
        ("X-Request-ID", toString r1.uniqueId) ∈ r1.headers := by
  intro r1 h1 r2 h2
  simp only [transcribe_audio, hf] at h1 h2
  obtain ⟨a1, rfl⟩ := retryLoop_requests_mem cfg tr1 now1 f.content 3 0 r1 h1
  obtain ⟨a2, rfl⟩ := retryLoop_requests_mem cfg tr2 now2 f.content 3 0 r2 h2
  exact ⟨hne, rfl, by simp [mkRequest]⟩

/-- Claim C8, witness: two concrete calls one microsecond apart. -/
theorem transcribe_unique_request_ids_witness :
    (mkRequest cfg0 11 [1, 2] 0).uniqueId ≠ (mkRequest cfg0 12 [1, 2] 0).uniqueId ∧
    (mkRequest cfg0 11 [1, 2] 0).headers.map Prod.fst =
      ["Authorization", "X-Key-Alias", "X-Request-ID"] ∧
    ("X-Request-ID", toString (mkRequest cfg0 11 [1, 2] 0).uniqueId) ∈
      (mkRequest cfg0 11 [1, 2] 0).headers :=
  transcribe_unique_request_ids cfg0 fs0 t200 t200 false false "a.wav"
    { size := 2, content := [1, 2] } 11 12 (by decide) (by decide)
    (mkRequest cfg0 11 [1, 2] 0) (by decide) (mkRequest cfg0 12 [1, 2] 0) (by decide)

/-- Claim C9.  For every path the filesystem does not know, transcribe
raises the typed file-not-found TranscriptionError immediately: no HTTP
attempt is made, no sleep happens, and the session state is returned
unchanged. -/
theorem transcribe_missing_file (cfg : LiteLLMConfig) (now : Nat)
    (fs : FileSystem) (transport : Transport) (session : Bool) (path : String)
    (h : fs path = none) :
    (transcribe_audio cfg now fs transport session path).1.result =
      .err (.fileNotFound path) ∧
    (transcribe_audio cfg now fs transport session path).1.requests = [] ∧
    (transcribe_audio cfg now fs transport session path).1.sleeps = [] ∧
    (transcribe_audio cfg now fs transport session path).2 = session := by
  simp [transcribe_audio, h]

/-- Claim C9, witness at a concrete missing path. -/
theorem transcribe_missing_file_witness :
    (transcribe_audio cfg0 3 fs0 t200 true "missing.wav").1.result =
      .err (.fileNotFound "missing.wav") ∧
    (transcribe_audio cfg0 3 fs0 t200 true "missing.wav").1.requests = [] ∧
    (transcribe_audio cfg0 3 fs0 t200 true "missing.wav").1.sleeps = [] ∧
    (transcribe_audio cfg0 3 fs0 t200 true "missing.wav").2 = true :=
  transcribe_missing_file cfg0 3 fs0 t200 true "missing.wav" (by decide)

/-- Claim C4.  Whenever the analyzer returns metrics, has_voice is true if
and only if all four acceptance conditions hold on the returned metrics:
duration at least 0.2s, RMS above 0.005, voice activity ratio above 0.03,
and the noise level not exceeding 0.8 times the RMS. -/
theorem analyze_has_voice_iff (sq lg : ℚ → ℚ) (x : List ℚ) (sr : Nat)
    (h : (analyzeAudio sq lg x sr).isOk = true) :
    ((getMetrics (analyzeAudio sq lg x sr)).has_voice = true ↔
      (1 / 5 ≤ (getMetrics (analyzeAudio sq lg x sr)).duration ∧
       1 / 200 < (getMetrics (analyzeAudio sq lg x sr)).rms_level ∧
       3 / 100 < (getMetrics (analyzeAudio sq lg x sr)).voice_activity_ratio ∧
       ¬((getMetrics (analyzeAudio sq lg x sr)).rms_level * (4 / 5) <
           (getMetrics (analyzeAudio sq lg x sr)).noise_level))) := by
  by_cases hsr : sr = 0
  · simp [analyzeAudio, hsr, Except.isOk, Except.toBool] at h
  by_cases hx : x.isEmpty
  · simp [analyzeAudio, hsr, hx, Except.isOk, Except.toBool] at h
  · simp only [analyzeAudio, if_neg hsr, hx, Bool.false_eq_true, if_false,
      getMetrics, Bool.and_eq_true, decide_eq_true_eq, Bool.not_eq_true',
      decide_eq_false_iff_not]
    tauto

/-- Claim C4, witness: a concrete 10ms single-sample artifact at 100 Hz,
evaluated through the theorem. -/
theorem analyze_has_voice_iff_witness :
    ((getMetrics (analyzeAudio id id [0] 100)).has_voice = true ↔
      (1 / 5 ≤ (getMetrics (analyzeAudio id id [0] 100)).duration ∧
       1 / 200 < (getMetrics (analyzeAudio id id [0] 100)).rms_level ∧
       3 / 100 < (getMetrics (analyzeAudio id id [0] 100)).voice_activity_ratio ∧
       ¬((getMetrics (analyzeAudio id id [0] 100)).rms_level * (4 / 5) <
           (getMetrics (analyzeAudio id id [0] 100)).noise_level))) :=
  analyze_has_voice_iff id id [0] 100 (by decide)

/-- Claim C5, counterexample.  The all-zero sample sequence of length 0
(with a positive sample rate) is not analyzed to has_voice = false:
np.max over the empty absolute-value array raises, so the analyzer
produces no metrics at all. -/
theorem analyze_empty_silence_counterexample :
    (analyzeAudio id id (List.replicate 0 0) 16000).isOk = false := by
  decide

/-- Claim C5, amended.  For every all-zero sample sequence of positive
length and every positive sample rate, the analyzer returns metrics with
has_voice = false and voice_activity_ratio = 0 (sequences of length zero
make the underlying max-reduction raise instead). -/
theorem analyze_silence_no_voice (sq lg : ℚ → ℚ) (n sr : Nat) (hn : 1 ≤ n)
    (hsr : 1 ≤ sr) (h0 : sq 0 = 0) :
    (analyzeAudio sq lg (List.replicate n 0) sr).isOk = true ∧
    (getMetrics (analyzeAudio sq lg (List.replicate n 0) sr)).has_voice = false ∧
    (getMetrics (analyzeAudio sq lg (List.replicate n 0) sr)).voice_activity_ratio
      = 0 := by
  have hsr0 : sr ≠ 0 := by omega
  have hne : (List.replicate n (0 : ℚ)).isEmpty = false := by
    cases n with
    | zero => omega
    | succ m => simp [List.replicate_succ]
  have hratio : calculateVoiceRatio (detectVoiceActivity sq (List.replicate n 0) sr)
      (((List.replicate n (0 : ℚ)).length : ℚ) / (sr : ℚ)) = 0 := by
    rw [detectVoiceActivity_silence sq n sr h0]
    simp [calculateVoiceRatio]
  refine ⟨?_, ?_, ?_⟩
  · simp [analyzeAudio, if_neg hsr0, hne, Except.isOk, Except.toBool]
  · simp only [analyzeAudio, if_neg hsr0, hne, Bool.false_eq_true, if_false,
      getMetrics]
    rw [hratio]
    simp
    exact fun _ _ h3 => absurd h3 (by norm_num)
  · simp only [analyzeAudio, if_neg hsr0, hne, Bool.false_eq_true, if_false,
      getMetrics]
    exact hratio

/-- Claim C5, witness: 3 zero samples at 100 Hz, through the amended
theorem. -/
theorem analyze_silence_no_voice_witness :
    (analyzeAudio id id (List.replicate 3 0) 100).isOk = true ∧
    (getMetrics (analyzeAudio id id (List.replicate 3 0) 100)).has_voice = false ∧
    (getMetrics (analyzeAudio id id (List.replicate 3 0) 100)).voice_activity_ratio
      = 0 :=
  analyze_silence_no_voice id id 3 100 (by decide) (by decide) rfl

/-- Claim C6.  Silence trimming is idempotent: re-trimming an
already-trimmed sample sequence with the same threshold returns it
unchanged (in particular it is not shortened further).  The sample-rate
hypothesis states that the rate is a multiple of 10, so that the 0.2s pad
is a whole number of 100ms scan chunks; it holds for the recorder's
default 16 kHz configuration. -/
theorem fastTrimSilence_idempotent (sq : ℚ → ℚ) (sr : Nat) (audio : List ℚ)
    (t : ℚ) (h10 : sr % 10 = 0) :
    fastTrimSilence sq sr (fastTrimSilence sq sr audio t) t =
      fastTrimSilence sq sr audio t := by
  have hc1 : 1 ≤ trimChunkSize sr := by
    unfold trimChunkSize; split <;> omega
  obtain ⟨m, hm⟩ : ∃ m, trimPad sr = m * trimChunkSize sr := by
    obtain ⟨q, rfl⟩ : ∃ q, sr = 10 * q := ⟨sr / 10, by omega⟩
    by_cases hq : q = 0
    · subst hq; exact ⟨0, by simp [trimPad]⟩
    · refine ⟨2, ?_⟩
      have h1 : 10 * q / 10 = q := by omega
      have h2 : 10 * q / 5 = 2 * q := by omega
      unfold trimPad trimChunkSize
      rw [h1, h2, if_neg hq]
  by_cases h0 : audio.length = 0
  · have he : fastTrimSilence sq sr audio t = audio := by
      rw [fastTrimSilence, if_pos h0]
    rw [he, fastTrimSilence, if_pos h0]
  · have htrim : fastTrimSilence sq sr audio t =
        audio.take (min audio.length (trimLastIdx sq t sr audio + trimPad sr)) := by
      rw [fastTrimSilence, if_neg h0]
    by_cases hcase : audio.length ≤ trimLastIdx sq t sr audio + trimPad sr
    · have hy : fastTrimSilence sq sr audio t = audio := by
        rw [htrim, min_eq_left hcase, List.take_length]
      rw [hy]
      rw [htrim, min_eq_left hcase, List.take_length]
    · push_neg at hcase
      have hy : fastTrimSilence sq sr audio t =
          audio.take (trimLastIdx sq t sr audio + trimPad sr) := by
        rw [htrim, min_eq_right (by omega)]
      by_cases hLp0 : trimLastIdx sq t sr audio + trimPad sr = 0
      · rw [hy, hLp0]
        simp [fastTrimSilence]
      · rw [hy]
        have hylen : (audio.take (trimLastIdx sq t sr audio + trimPad sr)).length =
            trimLastIdx sq t sr audio + trimPad sr := by
          rw [List.length_take]; omega
        have key : trimLastIdx sq t sr audio ≤
            trimLastIdx sq t sr (audio.take (trimLastIdx sq t sr audio + trimPad sr)) := by
          by_cases hLz : trimLastIdx sq t sr audio = 0
          · omega
          · have hlen_ge : ¬ (audio.length < trimChunkSize sr) := by
              intro hlt
              exact hLz (by rw [trimLastIdx_def, if_pos hlt])
            have hLval : trimLastIdx sq t sr audio =
                trimGo (chunkLoud sq t audio (trimChunkSize sr)) (trimChunkSize sr - 1)
                  (audio.length - trimChunkSize sr) := by
              rw [trimLastIdx_def, if_neg hlen_ge]
            rcases trimGo_shape (chunkLoud sq t audio (trimChunkSize sr))
                (trimChunkSize sr - 1) (audio.length - trimChunkSize sr) with
              ⟨j, hj, hloud, hval⟩ | hzero
            · have hkc : trimChunkSize sr - 1 + 1 = trimChunkSize sr := by omega
              have hLj : trimLastIdx sq t sr audio = j + trimChunkSize sr := by
                rw [hLval, hval, hkc]
              have hylen_ge :
                  ¬ ((audio.take (trimLastIdx sq t sr audio + trimPad sr)).length <
                     trimChunkSize sr) := by
                rw [hylen]; omega
              have hstart :
                  (audio.take (trimLastIdx sq t sr audio + trimPad sr)).length -
                    trimChunkSize sr = j + m * trimChunkSize sr := by
                rw [hylen]; omega
              have hcong : trimGo (chunkLoud sq t
                    (audio.take (trimLastIdx sq t sr audio + trimPad sr))
                    (trimChunkSize sr)) (trimChunkSize sr - 1)
                    (j + m * trimChunkSize sr) =
                  trimGo (chunkLoud sq t audio (trimChunkSize sr))
                    (trimChunkSize sr - 1) (j + m * trimChunkSize sr) := by
                apply trimGo_congr
                intro j2 hj2
                exact chunkLoud_take sq t audio
                  (trimLastIdx sq t sr audio + trimPad sr) (trimChunkSize sr) j2
                  (by omega)
              have hdes := trimGo_descent (chunkLoud sq t audio (trimChunkSize sr))
                (trimChunkSize sr - 1) j hloud m
              rw [hkc] at hdes
              conv_rhs => rw [trimLastIdx_def]
              rw [if_neg hylen_ge, hstart, hcong]
              omega
            · exact absurd (hLval.trans hzero) hLz
        have hmin : min (audio.take (trimLastIdx sq t sr audio + trimPad sr)).length
            (trimLastIdx sq t sr
              (audio.take (trimLastIdx sq t sr audio + trimPad sr)) + trimPad sr) =
            (audio.take (trimLastIdx sq t sr audio + trimPad sr)).length := by
          rw [hylen]
          omega
        rw [fastTrimSilence, if_neg (by rw [hylen]; omega), hmin, List.take_length]

/-- Claim C6, witness: a concrete one-sample recording at the default
16 kHz rate, re-trimmed through the theorem. -/
theorem fastTrimSilence_idempotent_witness :
    fastTrimSilence id 16000 (fastTrimSilence id 16000 [1] (1 / 100)) (1 / 100) =
      fastTrimSilence id 16000 [1] (1 / 100) :=
  fastTrimSilence_idempotent id 16000 [1] (1 / 100) (by decide)

/-- Claim C10.  The trim output is an initial segment of the input: it is
exactly the input truncated to the output length (so every retained sample
equals the corresponding input sample), and it is never longer than the
input. -/
theorem fastTrimSilence_initial_segment (sq : ℚ → ℚ) (sr : Nat)
    (audio : List ℚ) (t : ℚ) :
    fastTrimSilence sq sr audio t =
      audio.take (fastTrimSilence sq sr audio t).length ∧
    (fastTrimSilence sq sr audio t).length ≤ audio.length := by
  by_cases h0 : audio.length = 0
  · obtain rfl := List.length_eq_zero.mp h0
    simp [fastTrimSilence]
  · have he : fastTrimSilence sq sr audio t =
        audio.take (min audio.length (trimLastIdx sq t sr audio + trimPad sr)) := by
      rw [fastTrimSilence, if_neg h0]
    rw [he]
    constructor
    · rw [List.length_take]
      exact (List.take_eq_take.mpr (by omega))
    · rw [List.length_take]; omega

/-- Claim C7.  Once the stop precondition (a session is active) has been
passed, every outcome of stop_recording -- hardware halt failure,
missing buffer, serialization failure, or success -- leaves the recorder
idle with the buffer released; consequently a subsequent successful start
installs exactly its fresh capture buffer (no stale samples), and a failed
start leaves no buffer at all. -/
theorem stopRecording_releases_buffer (sq : ℚ → ℚ) (sr : Nat)
    (haltOk writeOk : Bool) (elapsed : Option ℚ) (currentFrame : Nat)
    (s : RecorderState) (fresh : List ℚ) (e : AudioErr)
    (h : s.recording = true) :
    (stopRecording sq sr haltOk writeOk elapsed currentFrame s).1.recording = false ∧
    (stopRecording sq sr haltOk writeOk elapsed currentFrame s).1.audioData = none ∧
    ((startRecording none fresh
        (stopRecording sq sr haltOk writeOk elapsed currentFrame s).1).1).audioData
      = some fresh ∧
    ((startRecording (some e) fresh
        (stopRecording sq sr haltOk writeOk elapsed currentFrame s).1).1).audioData
      = none := by
  have hpost : (stopRecording sq sr haltOk writeOk elapsed currentFrame s).1 =
      { recording := false, audioData := none } := by
    unfold stopRecording
    rw [h]
    cases haltOk with
    | false => simp
    | true =>
      cases hd : s.audioData with
      | none => simp
      | some buf => cases writeOk <;> simp
  rw [hpost]
  exact ⟨rfl, rfl, by simp [startRecording], by simp [startRecording]⟩

/-- Claim C7, witness: a concrete active session stopped with both the
hardware halt and the artifact write failing. -/
theorem stopRecording_releases_buffer_witness :
    (stopRecording id 16000 false false none 0
        { recording := true, audioData := some [1, 2] }).1.recording = false ∧
    (stopRecording id 16000 false false none 0
        { recording := true, audioData := some [1, 2] }).1.audioData = none ∧
    ((startRecording none [3]
        (stopRecording id 16000 false false none 0
          { recording := true, audioData := some [1, 2] }).1).1).audioData
      = some [3] ∧
    ((startRecording (some .deviceBusy) [3]
        (stopRecording id 16000 false false none 0
          { recording := true, audioData := some [1, 2] }).1).1).audioData
      = none :=
  stopRecording_releases_buffer id 16000 false false none 0
    { recording := true, audioData := some [1, 2] } [3] .deviceBusy rfl

end WindVoice
